import Mathlib

/-!
Verification of the backup/restore synchronization subsystem of Sub-Store.
The subject is the `gistBackup` handler in `src/backend/src/restful/index.js`
(lines 107-174), shallowly embedded as a pure state-passing function with an
explicit event trace recording every store read/write, network call and
migration invocation.
-/

namespace SubStore

/-- The settings record, as read from and written to the settings store.
`gistToken` is the remote-store credential (`none` models the JS value
`undefined`, i.e. no credential configured); `syncTime` is the millisecond
timestamp of the last successful upload. -/
structure Settings where
  gistToken : Option String
  syncTime : Nat
deriving Repr, DecidableEq

/-- JS truthiness of the stored `gistToken` value, as tested by
`if (!gistToken)` in the source: absent (`undefined`) and the empty string
are falsy; every non-empty string is truthy. -/
def tokenTruthy : Option String → Bool
  | none => false
  | some s => !(s == "")

/-- Local mutable process state visible to `gistBackup`: the settings record
(stored under `SETTINGS_KEY`), the serialized full local-state document
(stored under the sub-store key), and the in-memory cache used by the Node
runtime, of an abstract type `C`. -/
structure AppState (C : Type) where
  settings : Settings
  subStore : String
  cache : C
deriving DecidableEq

/-- The whole world a backup invocation touches: the local process state plus
the remote backup document (the single named file of the backup gist;
`none` when the document does not exist). -/
structure World (C : Type) where
  app : AppState C
  remote : Option String
deriving DecidableEq

/-- One observable effect of a run: a settings read or write, a sub-store
document read or write, a remote upload or download network call, the Node
cache persistence, or one invocation of the migration step. -/
inductive Event where
  | readSettings
  | writeSettings (s : Settings)
  | readStore
  | writeStore (content : String)
  | gistUpload (content : String)
  | gistDownload
  | persistCache
  | migrateCall
deriving Repr, DecidableEq

/-- A classified error object as built by the handler: the error class name,
the stable code, the human-readable message, and the optional detail line. -/
structure ErrObj where
  errType : String
  code : String
  message : String
  detail : Option String
deriving Repr, DecidableEq

/-- The response sent back: `success(res)` or `failed(res, e)`. -/
inductive Response where
  | ok
  | fail (e : ErrObj)
deriving Repr, DecidableEq

/-- Ambient inputs of one invocation that the code obtains from outside the
store: which runtime variant is active (`$.env.isNode`), the value
`new Date().getTime()` evaluates to at the syncTime update, and injected
outcomes of the two network calls (`uploadErr` / `downloadErr` carry the
`JSON.stringify` rendering of the thrown error). -/
structure Env where
  isNode : Bool
  now : Nat
  uploadFails : Bool
  uploadErr : String
  downloadFails : Bool
  downloadErr : String
deriving Repr, DecidableEq

/-- Outcome of `gist.download(GIST_BACKUP_FILE_NAME)`: an injected network
failure, otherwise the content of the remote backup document, a failure when
the document does not exist. -/
def downloadOutcome {C : Type} (env : Env) (w : World C) : Except String String :=
  if env.downloadFails then Except.error env.downloadErr
  else match w.remote with
    | some c => Except.ok c
    | none => Except.error "GIST_NOT_FOUND"

/-- `true` exactly when `JSON.parse` of the given string succeeds under the
supplied parse function. -/
def parseOkB {C : Type} (parseCache : String → Except String C) (s : String) : Bool :=
  match parseCache s with
  | Except.ok _ => true
  | Except.error _ => false

/-- The content uploaded by the upload branch: the sub-store document, except
in the Node runtime, where it is `JSON.stringify($.cache, null, two spaces)`. -/
def uploadContent {C : Type} (stringifyCache : C → String) (env : Env)
    (w : World C) : String :=
  if env.isNode then stringifyCache w.app.cache else w.app.subStore

/-- The classified failure built by the outer catch block:
`InternalServerError(BACKUP_FAILED, Failed to ... , Reason: ...)`. -/
def backupFailedErr (action cause : String) : ErrObj :=
  { errType := "InternalServerError"
    code := "BACKUP_FAILED"
    message := "Failed to " ++ action ++ " data to gist!"
    detail := some ("Reason: " ++ cause) }

/-- The classified failure for a missing credential:
`RequestInvalidError(GIST_TOKEN_NOT_FOUND, ...)`. -/
def tokenNotFoundErr : ErrObj :=
  { errType := "RequestInvalidError"
    code := "GIST_TOKEN_NOT_FOUND"
    message := "GitHub Token is required for backup!"
    detail := none }

/-- Shallow embedding of the `gistBackup` handler
(src/backend/src/restful/index.js, lines 107-174). Parameters model the
collaborators that live outside this file of the repository:
`stringifyCache` / `parseCache` are `JSON.stringify` / `JSON.parse` on the
Node in-memory cache (`parseCache` is fallible because `JSON.parse` throws
on invalid input, and the thrown error is caught by the outer catch);
`migrateStore` — modelled from the spec: the `migrate` collaborator from
utils/migration is missing from src, the spec describes it as an idempotent
transform side-effecting only on the local state store, so it is taken as a
function rewriting the sub-store document. The result is the response, the
world after the run, and the ordered trace of effects. -/
def gistBackup {C : Type} (stringifyCache : C → String)
    (parseCache : String → Except String C) (migrateStore : String → String)
    (env : Env) (action : String) (w : World C) :
    Response × World C × List Event :=
  -- const { gistToken } = $.read(SETTINGS_KEY);
  let gistToken := w.app.settings.gistToken
  if !(tokenTruthy gistToken) then
    (Response.fail tokenNotFoundErr, w, [Event.readSettings])
  else
    -- const settings = $.read(SETTINGS_KEY); const updated = settings.syncTime;
    let settings := w.app.settings
    let updated := settings.syncTime
    if action = "upload" then
      -- settings.syncTime = new Date().getTime(); $.write(settings, SETTINGS_KEY);
      let settings1 : Settings := { settings with syncTime := env.now }
      let w1 : World C := { w with app := { w.app with settings := settings1 } }
      -- content = $.read(sub-store); if ($.env.isNode) content = JSON.stringify($.cache);
      let content := uploadContent stringifyCache env w1
      let pre : List Event :=
        [Event.readSettings, Event.readSettings, Event.writeSettings settings1,
         Event.readStore, Event.gistUpload content]
      if env.uploadFails then
        -- restore syncTime if upload failed, rethrow into the outer catch
        let settings2 : Settings := { settings1 with syncTime := updated }
        let w2 : World C := { w1 with app := { w1.app with settings := settings2 } }
        (Response.fail (backupFailedErr action env.uploadErr), w2,
         pre ++ [Event.writeSettings settings2])
      else
        (Response.ok, { w1 with remote := some content }, pre)
    else if action = "download" then
      let pre : List Event :=
        [Event.readSettings, Event.readSettings, Event.gistDownload]
      match downloadOutcome env w with
      | Except.error e =>
        (Response.fail (backupFailedErr action e), w, pre)
      | Except.ok content =>
        -- $.write(content, sub-store key);
        let w1 : World C := { w with app := { w.app with subStore := content } }
        if env.isNode then
          -- content = JSON.parse(content); $.cache = content; $.persistCache();
          match parseCache content with
          | Except.error pe =>
            (Response.fail (backupFailedErr action pe), w1,
             pre ++ [Event.writeStore content])
          | Except.ok c =>
            let w2 : World C := { w1 with app := { w1.app with cache := c } }
            let w3 : World C :=
              { w2 with app := { w2.app with subStore := migrateStore w2.app.subStore } }
            (Response.ok, w3,
             pre ++ [Event.writeStore content, Event.persistCache, Event.migrateCall])
        else
          let w3 : World C :=
            { w1 with app := { w1.app with subStore := migrateStore w1.app.subStore } }
          (Response.ok, w3, pre ++ [Event.writeStore content, Event.migrateCall])
    else
      -- no case of the switch matches: fall through to success(res)
      (Response.ok, w, [Event.readSettings, Event.readSettings])

/-- Number of migration invocations recorded in a trace. -/
def countMigrate : List Event → Nat
  | [] => 0
  | Event.migrateCall :: t => countMigrate t + 1
  | _ :: t => countMigrate t

/-- C5: with no credential configured (a falsy `gistToken`), either action
fails with the configuration error `GIST_TOKEN_NOT_FOUND`, the world is
unchanged (zero writes, settings untouched) and the trace holds a single
settings read (no network call). -/
theorem credential_gate {C : Type} (stringifyCache : C → String)
    (parseCache : String → Except String C) (migrateStore : String → String)
    (env : Env) (action : String) (w : World C)
    (htok : tokenTruthy w.app.settings.gistToken = false) :
    gistBackup stringifyCache parseCache migrateStore env action w =
      (Response.fail tokenNotFoundErr, w, [Event.readSettings]) := by
  simp [gistBackup, htok]

/-- C5 witness: a concrete run with no token configured. -/
theorem credential_gate_witness :
    tokenTruthy (World.mk (AppState.mk (Settings.mk none 7) "doc" "cache")
        none).app.settings.gistToken = false ∧
    gistBackup (fun c : String => c) (fun s => Except.ok s) (fun s => s)
        (Env.mk false 9 false "" false "") "upload"
        (World.mk (AppState.mk (Settings.mk none 7) "doc" "cache") none) =
      (Response.fail tokenNotFoundErr,
       World.mk (AppState.mk (Settings.mk none 7) "doc" "cache") none,
       [Event.readSettings]) :=
  ⟨rfl, credential_gate _ _ _ _ _ _ rfl⟩

/-- C10: the credential check is pure truthiness: a falsy stored token (in
particular the empty string) makes the run fail with `GIST_TOKEN_NOT_FOUND`
before any mutation or network call, with response and trace identical to a
run where no credential is configured at all. -/
theorem falsy_token_like_missing {C : Type} (stringifyCache : C → String)
    (parseCache : String → Except String C) (migrateStore : String → String)
    (env : Env) (action : String) (w : World C)
    (hf : tokenTruthy w.app.settings.gistToken = false) :
    (gistBackup stringifyCache parseCache migrateStore env action w).1 =
      Response.fail tokenNotFoundErr ∧
    (gistBackup stringifyCache parseCache migrateStore env action w).2.1 = w ∧
    (gistBackup stringifyCache parseCache migrateStore env action w).1 =
      (gistBackup stringifyCache parseCache migrateStore env action
        { w with app := { w.app with settings :=
            { w.app.settings with gistToken := none } } }).1 ∧
    (gistBackup stringifyCache parseCache migrateStore env action w).2.2 =
      (gistBackup stringifyCache parseCache migrateStore env action
        { w with app := { w.app with settings :=
            { w.app.settings with gistToken := none } } }).2.2 := by
  have hn : tokenTruthy (none : Option String) = false := rfl
  simp [gistBackup, hf, hn]

/-- C10 witness: a concrete run whose configured token is the empty string. -/
theorem falsy_token_like_missing_witness :
    tokenTruthy (World.mk (AppState.mk (Settings.mk (some "") 7) "doc" "cache")
        (some "r")).app.settings.gistToken = false ∧
    ((gistBackup (fun c : String => c) (fun s => Except.ok s) (fun s => s)
        (Env.mk false 9 false "" false "") "download"
        (World.mk (AppState.mk (Settings.mk (some "") 7) "doc" "cache")
          (some "r"))).1 = Response.fail tokenNotFoundErr ∧
    (gistBackup (fun c : String => c) (fun s => Except.ok s) (fun s => s)
        (Env.mk false 9 false "" false "") "download"
        (World.mk (AppState.mk (Settings.mk (some "") 7) "doc" "cache")
          (some "r"))).2.1 =
      World.mk (AppState.mk (Settings.mk (some "") 7) "doc" "cache") (some "r") ∧
    (gistBackup (fun c : String => c) (fun s => Except.ok s) (fun s => s)
        (Env.mk false 9 false "" false "") "download"
        (World.mk (AppState.mk (Settings.mk (some "") 7) "doc" "cache")
          (some "r"))).1 =
      (gistBackup (fun c : String => c) (fun s => Except.ok s) (fun s => s)
        (Env.mk false 9 false "" false "") "download"
        { World.mk (AppState.mk (Settings.mk (some "") 7) "doc" "cache")
            (some "r") with app := { (World.mk (AppState.mk
              (Settings.mk (some "") 7) "doc" "cache") (some "r")).app with
            settings := { (World.mk (AppState.mk (Settings.mk (some "") 7)
              "doc" "cache") (some "r")).app.settings with
              gistToken := none } } }).1 ∧
    (gistBackup (fun c : String => c) (fun s => Except.ok s) (fun s => s)
        (Env.mk false 9 false "" false "") "download"
        (World.mk (AppState.mk (Settings.mk (some "") 7) "doc" "cache")
          (some "r"))).2.2 =
      (gistBackup (fun c : String => c) (fun s => Except.ok s) (fun s => s)
        (Env.mk false 9 false "" false "") "download"
        { World.mk (AppState.mk (Settings.mk (some "") 7) "doc" "cache")
            (some "r") with app := { (World.mk (AppState.mk
              (Settings.mk (some "") 7) "doc" "cache") (some "r")).app with
            settings := { (World.mk (AppState.mk (Settings.mk (some "") 7)
              "doc" "cache") (some "r")).app.settings with
              gistToken := none } } }).2.2) :=
  ⟨rfl, falsy_token_like_missing _ _ _ _ _ _ rfl⟩

/-- C4 counterexample: with a credential configured and the unrecognized
action `sync`, the run reports success but the trace does contain store
calls (two settings reads), refuting the claim that no store calls of any
kind occur. -/
theorem unknown_action_counterexample :
    (gistBackup (fun c : String => c) (fun s => Except.ok s) (fun s => s)
        (Env.mk false 9 false "" false "") "sync"
        (World.mk (AppState.mk (Settings.mk (some "t") 7) "doc" "cache")
          none)).1 = Response.ok ∧
    Event.readSettings ∈
      (gistBackup (fun c : String => c) (fun s => Except.ok s) (fun s => s)
        (Env.mk false 9 false "" false "") "sync"
        (World.mk (AppState.mk (Settings.mk (some "t") 7) "doc" "cache")
          none)).2.2 := by
  exact ⟨rfl, by decide⟩

/-- C4 amended: with a credential configured, any action outside
upload/download returns success, leaves the world unchanged (zero writes to
the sub-store or the settings) and makes no network call; the trace is
exactly two settings reads (store reads do occur). -/
theorem unknown_action_noop {C : Type} (stringifyCache : C → String)
    (parseCache : String → Except String C) (migrateStore : String → String)
    (env : Env) (action : String) (w : World C)
    (htok : tokenTruthy w.app.settings.gistToken = true)
    (hup : action ≠ "upload") (hdown : action ≠ "download") :
    gistBackup stringifyCache parseCache migrateStore env action w =
      (Response.ok, w, [Event.readSettings, Event.readSettings]) := by
  simp [gistBackup, htok, hup, hdown]

/-- C4 witness: the amended no-op behavior at the concrete action `sync`. -/
theorem unknown_action_noop_witness :
    tokenTruthy (World.mk (AppState.mk (Settings.mk (some "t") 7) "doc" "cache")
        none).app.settings.gistToken = true ∧
    ("sync" : String) ≠ "upload" ∧ ("sync" : String) ≠ "download" ∧
    gistBackup (fun c : String => c) (fun s => Except.ok s) (fun s => s)
        (Env.mk false 9 false "" false "") "sync"
        (World.mk (AppState.mk (Settings.mk (some "t") 7) "doc" "cache") none) =
      (Response.ok,
       World.mk (AppState.mk (Settings.mk (some "t") 7) "doc" "cache") none,
       [Event.readSettings, Event.readSettings]) :=
  ⟨rfl, by decide, by decide,
   unknown_action_noop _ _ _ _ _ _ rfl (by decide) (by decide)⟩

/-- C1: an upload attempt whose network call fails rolls `syncTime` back to
its pre-attempt value (never leaving the optimistic intermediate value) and
reports failure with code `BACKUP_FAILED`. -/
theorem upload_failure_rollback {C : Type} (stringifyCache : C → String)
    (parseCache : String → Except String C) (migrateStore : String → String)
    (env : Env) (w : World C)
    (htok : tokenTruthy w.app.settings.gistToken = true)
    (hfail : env.uploadFails = true) :
    (gistBackup stringifyCache parseCache migrateStore env "upload"
        w).2.1.app.settings.syncTime = w.app.settings.syncTime ∧
    (gistBackup stringifyCache parseCache migrateStore env "upload" w).1 =
      Response.fail (backupFailedErr "upload" env.uploadErr) := by
  simp [gistBackup, htok, hfail]

/-- C1 witness: a concrete failing upload; `syncTime` ends where it began. -/
theorem upload_failure_rollback_witness :
    tokenTruthy (World.mk (AppState.mk (Settings.mk (some "t") 7) "doc" "cache")
        none).app.settings.gistToken = true ∧
    (Env.mk false 9 true "boom" false "").uploadFails = true ∧
    ((gistBackup (fun c : String => c) (fun s => Except.ok s) (fun s => s)
        (Env.mk false 9 true "boom" false "") "upload"
        (World.mk (AppState.mk (Settings.mk (some "t") 7) "doc" "cache")
          none)).2.1.app.settings.syncTime =
      (World.mk (AppState.mk (Settings.mk (some "t") 7) "doc" "cache")
        none).app.settings.syncTime ∧
    (gistBackup (fun c : String => c) (fun s => Except.ok s) (fun s => s)
        (Env.mk false 9 true "boom" false "") "upload"
        (World.mk (AppState.mk (Settings.mk (some "t") 7) "doc" "cache")
          none)).1 =
      Response.fail (backupFailedErr "upload"
        (Env.mk false 9 true "boom" false "").uploadErr)) :=
  ⟨rfl, rfl, upload_failure_rollback _ _ _ _ _ rfl rfl⟩

/-- C2 counterexample: a successful upload whose clock reading equals the
pre-attempt `syncTime` (same-millisecond or backdated clock) leaves
`syncTime` not strictly greater than its pre-attempt value, refuting the
strict-increase part of the claim. -/
theorem upload_commit_counterexample :
    (gistBackup (fun c : String => c) (fun s => Except.ok s) (fun s => s)
        (Env.mk false 5 false "" false "") "upload"
        (World.mk (AppState.mk (Settings.mk (some "t") 5) "doc" "cache")
          none)).1 = Response.ok ∧
    ¬ ((World.mk (AppState.mk (Settings.mk (some "t") 5) "doc" "cache")
          none).app.settings.syncTime <
        (gistBackup (fun c : String => c) (fun s => Except.ok s) (fun s => s)
          (Env.mk false 5 false "" false "") "upload"
          (World.mk (AppState.mk (Settings.mk (some "t") 5) "doc" "cache")
            none)).2.1.app.settings.syncTime) := by
  exact ⟨rfl, by decide⟩

/-- C2 amended: a successful upload sets `syncTime` to the clock value read
during the attempt, hence at least the attempt start time; it is strictly
greater than the pre-attempt value whenever that clock value is strictly
greater than the pre-attempt value. -/
theorem upload_success_commit {C : Type} (stringifyCache : C → String)
    (parseCache : String → Except String C) (migrateStore : String → String)
    (env : Env) (w : World C) (startTime : Nat)
    (htok : tokenTruthy w.app.settings.gistToken = true)
    (hok : env.uploadFails = false)
    (hstart : startTime ≤ env.now) :
    (gistBackup stringifyCache parseCache migrateStore env "upload" w).1 =
      Response.ok ∧
    (gistBackup stringifyCache parseCache migrateStore env "upload"
        w).2.1.app.settings.syncTime = env.now ∧
    startTime ≤ (gistBackup stringifyCache parseCache migrateStore env "upload"
        w).2.1.app.settings.syncTime ∧
    (w.app.settings.syncTime < env.now →
      w.app.settings.syncTime <
        (gistBackup stringifyCache parseCache migrateStore env "upload"
          w).2.1.app.settings.syncTime) := by
  simp [gistBackup, htok, hok, hstart]

/-- C2 witness: a concrete successful upload with an advancing clock. -/
theorem upload_success_commit_witness :
    tokenTruthy (World.mk (AppState.mk (Settings.mk (some "t") 5) "doc" "cache")
        none).app.settings.gistToken = true ∧
    (Env.mk false 9 false "" false "").uploadFails = false ∧
    (4 : Nat) ≤ (Env.mk false 9 false "" false "").now ∧
    ((gistBackup (fun c : String => c) (fun s => Except.ok s) (fun s => s)
        (Env.mk false 9 false "" false "") "upload"
        (World.mk (AppState.mk (Settings.mk (some "t") 5) "doc" "cache")
          none)).1 = Response.ok ∧
    (gistBackup (fun c : String => c) (fun s => Except.ok s) (fun s => s)
        (Env.mk false 9 false "" false "") "upload"
        (World.mk (AppState.mk (Settings.mk (some "t") 5) "doc" "cache")
          none)).2.1.app.settings.syncTime =
      (Env.mk false 9 false "" false "").now ∧
    (4 : Nat) ≤ (gistBackup (fun c : String => c) (fun s => Except.ok s)
        (fun s => s) (Env.mk false 9 false "" false "") "upload"
        (World.mk (AppState.mk (Settings.mk (some "t") 5) "doc" "cache")
          none)).2.1.app.settings.syncTime ∧
    ((World.mk (AppState.mk (Settings.mk (some "t") 5) "doc" "cache")
        none).app.settings.syncTime < (Env.mk false 9 false "" false "").now →
      (World.mk (AppState.mk (Settings.mk (some "t") 5) "doc" "cache")
        none).app.settings.syncTime <
        (gistBackup (fun c : String => c) (fun s => Except.ok s) (fun s => s)
          (Env.mk false 9 false "" false "") "upload"
          (World.mk (AppState.mk (Settings.mk (some "t") 5) "doc" "cache")
            none)).2.1.app.settings.syncTime)) :=
  ⟨rfl, rfl, by decide,
   upload_success_commit _ _ _ _ _ 4 rfl rfl (by decide)⟩

/-- C8: in every upload attempt with a credential configured, the settings
record carrying the new `syncTime` is persisted to the settings store
strictly before the remote upload call is attempted (trace position 2
versus 4, whatever the outcome of the network call). -/
theorem upload_persist_before_network {C : Type} (stringifyCache : C → String)
    (parseCache : String → Except String C) (migrateStore : String → String)
    (env : Env) (w : World C)
    (htok : tokenTruthy w.app.settings.gistToken = true) :
    ∃ i j, i < j ∧
      (gistBackup stringifyCache parseCache migrateStore env "upload"
          w).2.2.get? i =
        some (Event.writeSettings { w.app.settings with syncTime := env.now }) ∧
      ∃ c, (gistBackup stringifyCache parseCache migrateStore env "upload"
          w).2.2.get? j = some (Event.gistUpload c) := by
  refine ⟨2, 4, by omega, ?_, ?_⟩ <;>
    cases hf : env.uploadFails <;>
      simp [gistBackup, htok, hf]

/-- C8 witness: the ordering at a concrete upload run. -/
theorem upload_persist_before_network_witness :
    tokenTruthy (World.mk (AppState.mk (Settings.mk (some "t") 7) "doc" "cache")
        none).app.settings.gistToken = true ∧
    ∃ i j, i < j ∧
      (gistBackup (fun c : String => c) (fun s => Except.ok s) (fun s => s)
          (Env.mk false 9 false "" false "") "upload"
          (World.mk (AppState.mk (Settings.mk (some "t") 7) "doc" "cache")
            none)).2.2.get? i =
        some (Event.writeSettings
          { (World.mk (AppState.mk (Settings.mk (some "t") 7) "doc" "cache")
              none).app.settings with
            syncTime := (Env.mk false 9 false "" false "").now }) ∧
      ∃ c, (gistBackup (fun c : String => c) (fun s => Except.ok s) (fun s => s)
          (Env.mk false 9 false "" false "") "upload"
          (World.mk (AppState.mk (Settings.mk (some "t") 7) "doc" "cache")
            none)).2.2.get? j = some (Event.gistUpload c) :=
  ⟨rfl, upload_persist_before_network _ _ _ _ _ rfl⟩

/-- C7: a download attempt whose remote call fails changes nothing locally:
the world after the attempt equals the world before it (sub-store document
and settings untouched), the response is the classified `BACKUP_FAILED`
failure carrying the cause, and the trace shows only the two settings reads
and the download call. -/
theorem download_failure_nondestructive {C : Type} (stringifyCache : C → String)
    (parseCache : String → Except String C) (migrateStore : String → String)
    (env : Env) (w : World C) (e : String)
    (htok : tokenTruthy w.app.settings.gistToken = true)
    (hfail : downloadOutcome env w = Except.error e) :
    gistBackup stringifyCache parseCache migrateStore env "download" w =
      (Response.fail (backupFailedErr "download" e), w,
       [Event.readSettings, Event.readSettings, Event.gistDownload]) := by
  simp [gistBackup, htok, hfail]

/-- C7 witness: a concrete failing download leaves the world untouched. -/
theorem download_failure_nondestructive_witness :
    tokenTruthy (World.mk (AppState.mk (Settings.mk (some "t") 7) "doc" "cache")
        (some "r")).app.settings.gistToken = true ∧
    downloadOutcome (Env.mk false 9 false "" true "netdown")
        (World.mk (AppState.mk (Settings.mk (some "t") 7) "doc" "cache")
          (some "r") : World String) = Except.error "netdown" ∧
    gistBackup (fun c : String => c) (fun s => Except.ok s) (fun s => s)
        (Env.mk false 9 false "" true "netdown") "download"
        (World.mk (AppState.mk (Settings.mk (some "t") 7) "doc" "cache")
          (some "r")) =
      (Response.fail (backupFailedErr "download" "netdown"),
       World.mk (AppState.mk (Settings.mk (some "t") 7) "doc" "cache")
         (some "r"),
       [Event.readSettings, Event.readSettings, Event.gistDownload]) :=
  ⟨rfl, rfl, download_failure_nondestructive _ _ _ _ _ _ rfl rfl⟩

/-- C3 counterexample: in the Node runtime, a download whose remote call
succeeds but whose content fails `JSON.parse` overwrites the sub-store
document and then skips the migration step entirely (the parse error is
thrown before `migrate()` is reached), refuting that a successful remote
download always triggers exactly one migration run. -/
theorem migration_invocation_counterexample :
    downloadOutcome (Env.mk true 0 false "" false "")
        (World.mk (AppState.mk (Settings.mk (some "t") 0) "doc" "cache")
          (some "not json") : World String) = Except.ok "not json" ∧
    (gistBackup (fun c : String => c)
        (fun _ => Except.error "SyntaxError: unexpected token") (fun s => s)
        (Env.mk true 0 false "" false "") "download"
        (World.mk (AppState.mk (Settings.mk (some "t") 0) "doc" "cache")
          (some "not json"))).2.2 =
      [Event.readSettings, Event.readSettings, Event.gistDownload,
       Event.writeStore "not json"] ∧
    countMigrate (gistBackup (fun c : String => c)
        (fun _ => Except.error "SyntaxError: unexpected token") (fun s => s)
        (Env.mk true 0 false "" false "") "download"
        (World.mk (AppState.mk (Settings.mk (some "t") 0) "doc" "cache")
          (some "not json"))).2.2 = 0 := by
  exact ⟨rfl, rfl, rfl⟩

/-- C3 amended: a download run performs exactly one migration invocation
when the remote call succeeds and (in the Node runtime) the content parses,
and zero migration invocations when the remote call fails or the Node parse
fails; whenever migration runs it runs after the sub-store overwrite. -/
theorem migration_invocation {C : Type} (stringifyCache : C → String)
    (parseCache : String → Except String C) (migrateStore : String → String)
    (env : Env) (w : World C)
    (htok : tokenTruthy w.app.settings.gistToken = true) :
    countMigrate (gistBackup stringifyCache parseCache migrateStore env
        "download" w).2.2 =
      (match downloadOutcome env w with
       | Except.error _ => 0
       | Except.ok c => if env.isNode && !(parseOkB parseCache c) then 0 else 1) ∧
    (∀ c, downloadOutcome env w = Except.ok c →
      (env.isNode = true → parseOkB parseCache c = true) →
      ∃ i j, i < j ∧
        (gistBackup stringifyCache parseCache migrateStore env
            "download" w).2.2.get? i = some (Event.writeStore c) ∧
        (gistBackup stringifyCache parseCache migrateStore env
            "download" w).2.2.get? j = some Event.migrateCall) := by
  cases hd : downloadOutcome env w with
  | error e =>
    constructor
    · simp [gistBackup, htok, hd, countMigrate]
    · intro c hc
      cases hc
  | ok c =>
    cases hN : env.isNode with
    | false =>
      constructor
      · simp [gistBackup, htok, hd, hN, countMigrate]
      · intro c2 hc2 _
        injection hc2 with h
        subst h
        refine ⟨3, 4, by omega, ?_, ?_⟩ <;> simp [gistBackup, htok, hd, hN]
    | true =>
      cases hp : parseCache c with
      | error pe =>
        constructor
        · simp [gistBackup, htok, hd, hN, hp, countMigrate, parseOkB]
        · intro c2 hc2 hpp
          injection hc2 with h
          subst h
          have hcontra := hpp rfl
          simp [parseOkB, hp] at hcontra
      | ok x =>
        constructor
        · simp [gistBackup, htok, hd, hN, hp, countMigrate, parseOkB]
        · intro c2 hc2 _
          injection hc2 with h
          subst h
          refine ⟨3, 5, by omega, ?_, ?_⟩ <;>
            simp [gistBackup, htok, hd, hN, hp]

/-- C3 witness: a concrete successful non-Node download runs migration once,
after the overwrite. -/
theorem migration_invocation_witness :
    tokenTruthy (World.mk (AppState.mk (Settings.mk (some "t") 7) "doc" "cache")
        (some "blob")).app.settings.gistToken = true ∧
    (countMigrate (gistBackup (fun c : String => c) (fun s => Except.ok s)
        (fun s => s) (Env.mk false 9 false "" false "") "download"
        (World.mk (AppState.mk (Settings.mk (some "t") 7) "doc" "cache")
          (some "blob"))).2.2 =
      (match downloadOutcome (Env.mk false 9 false "" false "")
          (World.mk (AppState.mk (Settings.mk (some "t") 7) "doc" "cache")
            (some "blob") : World String) with
       | Except.error _ => 0
       | Except.ok c =>
         if (Env.mk false 9 false "" false "").isNode &&
             !(parseOkB (fun s => Except.ok s) c) then 0 else 1) ∧
    (∀ c, downloadOutcome (Env.mk false 9 false "" false "")
        (World.mk (AppState.mk (Settings.mk (some "t") 7) "doc" "cache")
          (some "blob") : World String) = Except.ok c →
      ((Env.mk false 9 false "" false "").isNode = true →
        parseOkB (fun s => (Except.ok s : Except String String)) c = true) →
      ∃ i j, i < j ∧
        (gistBackup (fun c : String => c) (fun s => Except.ok s) (fun s => s)
            (Env.mk false 9 false "" false "") "download"
            (World.mk (AppState.mk (Settings.mk (some "t") 7) "doc" "cache")
              (some "blob"))).2.2.get? i = some (Event.writeStore c) ∧
        (gistBackup (fun c : String => c) (fun s => Except.ok s) (fun s => s)
            (Env.mk false 9 false "" false "") "download"
            (World.mk (AppState.mk (Settings.mk (some "t") 7) "doc" "cache")
              (some "blob"))).2.2.get? j = some Event.migrateCall)) :=
  ⟨rfl, migration_invocation _ _ _ _ _ rfl⟩

/-- C6: a successful upload of the backup blob followed by a successful
download of the same document retrieves exactly the uploaded blob, the
download succeeds, and the sub-store document afterwards is exactly the
retrieved content post-migration — hence migration applied to the uploaded
blob equals migration applied to the downloaded copy. In the Node runtime
the downloaded content must parse, which holds whenever stringify and parse
restore the same shape. -/
theorem upload_download_roundtrip {C : Type} (stringifyCache : C → String)
    (parseCache : String → Except String C) (migrateStore : String → String)
    (env1 env2 : Env) (w : World C)
    (htok : tokenTruthy w.app.settings.gistToken = true)
    (hup : env1.uploadFails = false)
    (hdl : env2.downloadFails = false)
    (hparse : env2.isNode = true →
      parseOkB parseCache (uploadContent stringifyCache env1 w) = true) :
    downloadOutcome env2 (gistBackup stringifyCache parseCache migrateStore
        env1 "upload" w).2.1 =
      Except.ok (uploadContent stringifyCache env1 w) ∧
    (gistBackup stringifyCache parseCache migrateStore env2 "download"
        (gistBackup stringifyCache parseCache migrateStore env1 "upload"
          w).2.1).1 = Response.ok ∧
    (gistBackup stringifyCache parseCache migrateStore env2 "download"
        (gistBackup stringifyCache parseCache migrateStore env1 "upload"
          w).2.1).2.1.app.subStore =
      migrateStore (uploadContent stringifyCache env1 w) := by
  have h1 : (gistBackup stringifyCache parseCache migrateStore env1 "upload"
      w).2.1 =
      { w with
        app := { w.app with
          settings := { w.app.settings with syncTime := env1.now } },
        remote := some (uploadContent stringifyCache env1 w) } := by
    simp [gistBackup, htok, hup, uploadContent]
  rw [h1]
  cases hN : env2.isNode with
  | false =>
    refine ⟨?_, ?_, ?_⟩ <;>
      simp [gistBackup, downloadOutcome, htok, hdl, hN]
  | true =>
    have hpB := hparse hN
    cases hpx : parseCache (uploadContent stringifyCache env1 w) with
    | error e =>
      rw [parseOkB] at hpB
      rw [hpx] at hpB
      cases hpB
    | ok x =>
      refine ⟨?_, ?_, ?_⟩ <;>
        simp [gistBackup, downloadOutcome, htok, hdl, hN, hpx]

/-- C6 witness: a concrete round trip in the non-Node runtime. -/
theorem upload_download_roundtrip_witness :
    tokenTruthy (World.mk (AppState.mk (Settings.mk (some "t") 7) "doc" "cache")
        none).app.settings.gistToken = true ∧
    (Env.mk false 9 false "" false "").uploadFails = false ∧
    (Env.mk false 11 false "" false "").downloadFails = false ∧
    ((Env.mk false 11 false "" false "").isNode = true →
      parseOkB (fun s => (Except.ok s : Except String String))
        (uploadContent (fun c : String => c) (Env.mk false 9 false "" false "")
          (World.mk (AppState.mk (Settings.mk (some "t") 7) "doc" "cache")
            none)) = true) ∧
    (downloadOutcome (Env.mk false 11 false "" false "")
        (gistBackup (fun c : String => c) (fun s => Except.ok s) (fun s => s)
          (Env.mk false 9 false "" false "") "upload"
          (World.mk (AppState.mk (Settings.mk (some "t") 7) "doc" "cache")
            none)).2.1 =
      Except.ok (uploadContent (fun c : String => c)
        (Env.mk false 9 false "" false "")
        (World.mk (AppState.mk (Settings.mk (some "t") 7) "doc" "cache")
          none)) ∧
    (gistBackup (fun c : String => c) (fun s => Except.ok s) (fun s => s)
        (Env.mk false 11 false "" false "") "download"
        (gistBackup (fun c : String => c) (fun s => Except.ok s) (fun s => s)
          (Env.mk false 9 false "" false "") "upload"
          (World.mk (AppState.mk (Settings.mk (some "t") 7) "doc" "cache")
            none)).2.1).1 = Response.ok ∧
    (gistBackup (fun c : String => c) (fun s => Except.ok s) (fun s => s)
        (Env.mk false 11 false "" false "") "download"
        (gistBackup (fun c : String => c) (fun s => Except.ok s) (fun s => s)
          (Env.mk false 9 false "" false "") "upload"
          (World.mk (AppState.mk (Settings.mk (some "t") 7) "doc" "cache")
            none)).2.1).2.1.app.subStore =
      (fun s : String => s) (uploadContent (fun c : String => c)
        (Env.mk false 9 false "" false "")
        (World.mk (AppState.mk (Settings.mk (some "t") 7) "doc" "cache")
          none))) :=
  ⟨rfl, rfl, rfl, by decide,
   upload_download_roundtrip _ _ _ _ _ _ rfl rfl rfl (by decide)⟩

/-- C9: every failing backup invocation carries a stable classified code:
`GIST_TOKEN_NOT_FOUND` (with its fixed human-readable message) exactly when
the credential is missing, otherwise `BACKUP_FAILED` with the action named
in the message and a reason line literally containing the underlying cause
(the stringified network error, the download failure, or the Node parse
error). -/
theorem failure_classification {C : Type} (stringifyCache : C → String)
    (parseCache : String → Except String C) (migrateStore : String → String)
    (env : Env) (action : String) (w : World C) (e : ErrObj)
    (hfail : (gistBackup stringifyCache parseCache migrateStore env action
        w).1 = Response.fail e) :
    (tokenTruthy w.app.settings.gistToken = false ∧ e = tokenNotFoundErr) ∨
    (e.code = "BACKUP_FAILED" ∧
      e.message = "Failed to " ++ action ++ " data to gist!" ∧
      ∃ cause, e.detail = some ("Reason: " ++ cause) ∧
        ((action = "upload" ∧ env.uploadFails = true ∧
            cause = env.uploadErr) ∨
         (action = "download" ∧
           (downloadOutcome env w = Except.error cause ∨
            ∃ c, downloadOutcome env w = Except.ok c ∧
              parseCache c = Except.error cause)))) := by
  cases ht : tokenTruthy w.app.settings.gistToken with
  | false =>
    left
    refine ⟨rfl, ?_⟩
    simp [gistBackup, ht] at hfail
    exact hfail.symm
  | true =>
    right
    by_cases ha : action = "upload"
    · subst ha
      cases hf : env.uploadFails with
      | false => simp [gistBackup, ht, hf] at hfail
      | true =>
        simp [gistBackup, ht, hf] at hfail
        subst hfail
        exact ⟨rfl, rfl, env.uploadErr, rfl, Or.inl ⟨rfl, rfl, rfl⟩⟩
    · by_cases hd : action = "download"
      · subst hd
        cases hdo : downloadOutcome env w with
        | error de =>
          simp [gistBackup, ht, hdo] at hfail
          subst hfail
          exact ⟨rfl, rfl, de, rfl, Or.inr ⟨rfl, Or.inl rfl⟩⟩
        | ok c =>
          cases hN : env.isNode with
          | false => simp [gistBackup, ht, hdo, hN] at hfail
          | true =>
            cases hp : parseCache c with
            | ok x => simp [gistBackup, ht, hdo, hN, hp] at hfail
            | error pe =>
              simp [gistBackup, ht, hdo, hN, hp] at hfail
              subst hfail
              exact ⟨rfl, rfl, pe, rfl,
                Or.inr ⟨rfl, Or.inr ⟨c, rfl, hp⟩⟩⟩
      · simp [gistBackup, ht, ha, hd] at hfail

/-- C9 witness: the classification at a concrete failing run (credential
missing). -/
theorem failure_classification_witness :
    (gistBackup (fun c : String => c) (fun s => Except.ok s) (fun s => s)
        (Env.mk false 9 false "" false "") "upload"
        (World.mk (AppState.mk (Settings.mk none 7) "doc" "cache") none)).1 =
      Response.fail tokenNotFoundErr ∧
    ((tokenTruthy (World.mk (AppState.mk (Settings.mk none 7) "doc" "cache")
          none).app.settings.gistToken = false ∧
      tokenNotFoundErr = tokenNotFoundErr) ∨
     (tokenNotFoundErr.code = "BACKUP_FAILED" ∧
      tokenNotFoundErr.message = "Failed to " ++ "upload" ++ " data to gist!" ∧
      ∃ cause, tokenNotFoundErr.detail = some ("Reason: " ++ cause) ∧
        ((("upload" : String) = "upload" ∧
            (Env.mk false 9 false "" false "").uploadFails = true ∧
            cause = (Env.mk false 9 false "" false "").uploadErr) ∨
         (("upload" : String) = "download" ∧
           (downloadOutcome (Env.mk false 9 false "" false "")
              (World.mk (AppState.mk (Settings.mk none 7) "doc" "cache")
                none : World String) = Except.error cause ∨
            ∃ c, downloadOutcome (Env.mk false 9 false "" false "")
                (World.mk (AppState.mk (Settings.mk none 7) "doc" "cache")
                  none : World String) = Except.ok c ∧
              (fun s => (Except.ok s : Except String String)) c =
                Except.error cause))))) :=
  ⟨rfl, failure_classification (fun c : String => c) (fun s => Except.ok s)
    (fun s => s) (Env.mk false 9 false "" false "") "upload"
    (World.mk (AppState.mk (Settings.mk none 7) "doc" "cache") none)
    tokenNotFoundErr rfl⟩

end SubStore
